import Mathlib

/-!
Verification of the decision/orchestration core of a clinic-automation
service: a rule-based symptom classifier, a four-stage case orchestrator
(analysis, scheduling, triage, follow-up), a clinical-documentation
status pipeline, and a per-group broadcast notifier.

The definitions below are shallow embeddings of the corresponding Python
functions (`app/services/ai_agents/*.py`, `app/api/v1/audio.py`,
`app/api/v1/websocket.py`, `app/core/db.py`).  Conventions used
throughout:

* Python strings are Lean `String`s (ASCII data only in the rule tables);
  `x.lower()` is `pyLower`, `x.strip()` is `pyStrip`,
  `a in b` on strings is substring containment (`pyIn`).
* Calendar dates are modelled at day granularity as `Int` day numbers;
  `timedelta(days = d)` is `+ d` and `strftime`/`strptime` round-trips
  are the identity.
* A Python value that may fail `isinstance(str)` checks (the agents
  receive raw `Dict` data) is an `Option String`; `none` stands for a
  non-string element, whose `.lower()`/`join` raises and is caught by
  the enclosing `try`.
* Each agent returns `AgentOutcome α`: `ok` carries the fields of the
  success dict that later stages or the verified claims read, `err`
  is the `except` branch's error dict.  Purely presentational output
  fields (timestamps, prose recommendations, reasoning strings,
  notification texts, float confidences and wait times) are not
  modelled; no verified property mentions them.
-/

/-- Whether `needle` starts `hay` (helper for `pyIn`). -/
def charsStart : List Char → List Char → Bool
  | [], _ => true
  | _ :: _, [] => false
  | a :: as, b :: bs => a = b && charsStart as bs

/-- Whether `needle` occurs contiguously inside `hay` (helper for `pyIn`). -/
def charsContain (needle : List Char) : List Char → Bool
  | [] => needle.isEmpty
  | b :: bs => charsStart needle (b :: bs) || charsContain needle bs

/-- Python `needle in hay` for strings: substring containment. -/
def pyIn (needle hay : String) : Bool :=
  charsContain needle.data hay.data

/-- ASCII lower-casing of one character. -/
def charLower (c : Char) : Char :=
  if 'A' ≤ c ∧ c ≤ 'Z' then Char.ofNat (c.toNat + 32) else c

/-- ASCII upper-casing of one character. -/
def charUpper (c : Char) : Char :=
  if 'a' ≤ c ∧ c ≤ 'z' then Char.ofNat (c.toNat - 32) else c

/-- Python `s.lower()` on the ASCII data the rule tables use. -/
def pyLower (s : String) : String :=
  ⟨s.data.map charLower⟩

/-- Python `s.strip()`: drop surrounding whitespace. -/
def pyStrip (s : String) : String :=
  ⟨((s.data.dropWhile Char.isWhitespace).reverse.dropWhile
      Char.isWhitespace).reverse⟩

/-- Python `s.title()` for a single lowercase word (the department
codes): capitalise the first character, lower-case the rest. -/
def pyTitleWord (s : String) : String :=
  match s.data with
  | [] => ""
  | c :: rest => ⟨charUpper c :: rest.map charLower⟩

/-- Insert `x` into `acc` after every element `y` with `le y x`
(helper for `stableSort`). -/
def stableInsert (le : α → α → Bool) (x : α) : List α → List α
  | [] => [x]
  | y :: ys => if le y x then y :: stableInsert le x ys else x :: y :: ys

/-- Stable sort by insertion: with a total preorder `le`, elements that
compare equal keep their original relative order, which is exactly the
contract of Python's built-in stable `list.sort`. -/
def stableSort (le : α → α → Bool) (l : List α) : List α :=
  l.foldl (fun acc x => stableInsert le x acc) []

/-- Truthiness of a Python optional string: `None` and `""` are falsy. -/
def pyTruthy : Option String → Bool
  | none => false
  | some s => s ≠ ""

/-- Outcome of one agent call: the success record, or the record built by
the agent's own `except` branch (the error message string is retained). -/
inductive AgentOutcome (α : Type) where
  | ok (a : α)
  | err (msg : String)
deriving Repr, DecidableEq

namespace SymptomAnalyzer

/-- `SymptomAnalyzerAgent.HIGH_URGENCY_SYMPTOMS`. -/
def HIGH_URGENCY_SYMPTOMS : List String :=
  ["chest pain", "difficulty breathing", "shortness of breath",
   "severe bleeding", "unconscious", "seizure", "stroke symptoms",
   "severe allergic reaction", "anaphylaxis", "heart attack",
   "severe head injury", "poisoning", "overdose"]

/-- `SymptomAnalyzerAgent.MEDIUM_URGENCY_SYMPTOMS`. -/
def MEDIUM_URGENCY_SYMPTOMS : List String :=
  ["high fever", "persistent vomiting", "severe pain",
   "dehydration", "moderate bleeding", "broken bone",
   "severe infection", "diabetic emergency", "asthma attack"]

/-- The `all_text` scratch string of `_determine_urgency` /
`_identify_conditions`: `" ".join(symptoms) + " " + details`. -/
def allText (symptoms : List String) (details : String) : String :=
  String.intercalate " " symptoms ++ " " ++ details

/-- `SymptomAnalyzerAgent._determine_urgency`.  The source's for-loops
return the same constant on every match, so they are containment tests
over the phrase lists. -/
def determineUrgency (symptoms : List String) (details : String) : String :=
  let all_text := allText symptoms details
  if HIGH_URGENCY_SYMPTOMS.any (fun critical => pyIn critical all_text) then
    "critical"
  else if MEDIUM_URGENCY_SYMPTOMS.any (fun high => pyIn high all_text) then
    "high"
  else if ["severe", "extreme", "unbearable", "worst"].any
      (fun word => pyIn word all_text) then
    "high"
  else if ["moderate", "significant", "persistent"].any
      (fun word => pyIn word all_text) then
    "medium"
  else
    "low"

/-- Exact fraction representing a match score.  The Python floats that
occur here (`match_count / len(tuple)` with the tuples of length 3, and
the literal 0.5) are pairwise order-separated, so the exact fraction
order below coincides with the float order the source sorts by. -/
structure Score where
  num : Nat
  den : Nat
deriving Repr, DecidableEq

/-- Fraction order by cross multiplication. -/
def Score.le (a b : Score) : Bool :=
  a.num * b.den ≤ b.num * a.den

/-- One entry of a candidate-condition list (name, match strength,
implied urgency, recommended tests). -/
structure Condition where
  name : String
  match_score : Score
  urgency : String
  recommended_tests : List String
deriving Repr, DecidableEq

/-- Value side of `SYMPTOM_CONDITION_MAP`. -/
structure CondInfo where
  conditions : List String
  urgency : String
  recommended_tests : List String
deriving Repr, DecidableEq

/-- `SymptomAnalyzerAgent.SYMPTOM_CONDITION_MAP`, in source (insertion)
order. -/
def SYMPTOM_CONDITION_MAP : List (List String × CondInfo) :=
  [(["fever", "headache", "body ache"],
    ⟨["Viral Fever", "Flu", "Dengue"], "medium", ["CBC", "Dengue NS1"]⟩),
   (["cough", "fever", "breathing"],
    ⟨["Respiratory Infection", "Pneumonia", "COVID-19"], "high",
     ["Chest X-ray", "RT-PCR", "SpO2"]⟩),
   (["stomach", "nausea", "vomiting"],
    ⟨["Gastritis", "Food Poisoning", "Gastroenteritis"], "medium",
     ["Stool Test", "Liver Function Test"]⟩),
   (["headache", "dizziness", "nausea"],
    ⟨["Migraine", "Vertigo", "Hypertension"], "medium",
     ["BP Monitoring", "CT Scan if severe"]⟩),
   (["chest", "pain", "breathless"],
    ⟨["Cardiac Issue", "Angina", "Anxiety"], "critical",
     ["ECG", "Troponin", "Echo"]⟩)]

/-- `SymptomAnalyzerAgent._identify_conditions`. -/
def identifyConditions (symptoms : List String) (details : String) :
    List Condition :=
  let all_text := allText symptoms details
  let matched := SYMPTOM_CONDITION_MAP.foldl
    (fun acc entry =>
      let symptom_tuple := entry.1
      let condition_info := entry.2
      let match_count :=
        (symptom_tuple.filter (fun s => pyIn s all_text)).length
      if 2 ≤ match_count then
        acc ++ condition_info.conditions.map (fun c =>
          { name := c,
            match_score := ⟨match_count, symptom_tuple.length⟩,
            urgency := condition_info.urgency,
            recommended_tests := condition_info.recommended_tests })
      else acc) []
  let sorted :=
    stableSort (fun a b => Score.le b.match_score a.match_score) matched
  let withDefault :=
    if sorted.isEmpty then
      [{ name := "General Medical Consultation Required",
         match_score := ⟨1, 2⟩, urgency := "low",
         recommended_tests := ["General Health Checkup"] }]
    else sorted
  withDefault.take 5

/-- Leftmost maximal digit run of a string, as a number: the value of
`re.search(r'(\d+)', s)`. -/
def firstIntOf (s : String) : Option Nat :=
  let run := (s.data.dropWhile (fun c => !c.isDigit)).takeWhile Char.isDigit
  if run.isEmpty then none
  else some (run.foldl (fun n c => n * 10 + (c.toNat - 48)) 0)

/-- The `urgency_defaults` table of `_extract_severity_score`
(`dict.get` with default 5). -/
def urgencyDefault (urgency : String) : Nat :=
  if urgency = "critical" then 10
  else if urgency = "high" then 8
  else if urgency = "medium" then 5
  else if urgency = "low" then 3
  else 5

/-- `SymptomAnalyzerAgent._extract_severity_score`. -/
def extractSeverityScore (severity : Option String) (urgency : String) : Nat :=
  if pyTruthy severity then
    match firstIntOf (severity.getD "") with
    | some n => min n 10
    | none => urgencyDefault urgency
  else
    urgencyDefault urgency

/-- The `scores` table of `_urgency_to_score` (`dict.get` default 5). -/
def urgencyToScore (urgency : String) : Nat :=
  if urgency = "critical" then 10
  else if urgency = "high" then 8
  else if urgency = "medium" then 5
  else if urgency = "low" then 2
  else 5

/-- Input of `SymptomAnalyzerAgent.analyze`; a `none` symptom element
models a non-string value inside the raw symptom list. -/
structure AnalyzeInput where
  symptoms : List (Option String)
  symptom_details : String
  severity : Option String
  duration : Option String
deriving Repr, DecidableEq

/-- The `analysis` sub-dict of a successful `analyze` result. -/
structure Analysis where
  urgency_level : String
  urgency_score : Nat
  severity_score : Nat
  possible_conditions : List Condition
  requires_immediate_attention : Bool
deriving Repr, DecidableEq

/-- `SymptomAnalyzerAgent.analyze`.  Normalisation (`s.lower().strip()`)
raises on a non-string symptom; the surrounding `try` turns the raised
exception into the error record. -/
def analyze (inp : AnalyzeInput) : AgentOutcome Analysis :=
  match inp.symptoms.mapM id with
  | none => .err "AttributeError: lower"
  | some syms =>
    let normalized_symptoms := syms.map (fun s => pyStrip (pyLower s))
    let details_lower := pyLower inp.symptom_details
    let urgency_level := determineUrgency normalized_symptoms details_lower
    let conditions := identifyConditions normalized_symptoms details_lower
    let severity_score := extractSeverityScore inp.severity urgency_level
    .ok { urgency_level := urgency_level,
          urgency_score := urgencyToScore urgency_level,
          severity_score := severity_score,
          possible_conditions := conditions,
          requires_immediate_attention :=
            urgency_level = "critical" ∨ urgency_level = "high" }

/-- The `status` field `analyze` writes: `"completed"` on success,
`"error"` from the `except` branch. -/
def analyzeStatus : AgentOutcome Analysis → String
  | .ok _ => "completed"
  | .err _ => "error"

end SymptomAnalyzer

/-- Ordinal rank of the urgency tiers: `LOW < MEDIUM < HIGH < CRITICAL`. -/
def urgencyRank (urgency : String) : Nat :=
  if urgency = "critical" then 3
  else if urgency = "high" then 2
  else if urgency = "medium" then 1
  else 0

example :
    SymptomAnalyzer.determineUrgency ["shortness of breath"]
      "difficulty breathing" = "critical" := by decide

example :
    SymptomAnalyzer.determineUrgency ["trouble breathing"] "" = "low" := by
  decide

example : SymptomAnalyzer.firstIntOf "7/10" = some 7 := by decide
example : SymptomAnalyzer.firstIntOf "about 12, very bad" = some 12 := by
  decide

namespace Scheduler

/-- `AppointmentSchedulerAgent.TIME_SLOTS`, the day's slot catalog in
source order (morning before afternoon). -/
def TIME_SLOTS : List String :=
  ["09:00 AM", "09:30 AM", "10:00 AM", "10:30 AM", "11:00 AM", "11:30 AM",
   "02:00 PM", "02:30 PM", "03:00 PM", "03:30 PM", "04:00 PM", "04:30 PM"]

/-- One roster entry of `AppointmentSchedulerAgent.DOCTORS`. -/
structure Doctor where
  id : String
  name : String
  specialty : String
  department : String
  available : Bool
deriving Repr, DecidableEq

/-- `AppointmentSchedulerAgent.DOCTORS`. -/
def DOCTORS : List Doctor :=
  [⟨"USR_DEMO_DOC", "Dr. Ram Kumar", "General Medicine", "general", true⟩,
   ⟨"USR_DOC_CARDIO", "Dr. Priya Sharma", "Cardiology", "cardiac", true⟩,
   ⟨"USR_DOC_GASTRO", "Dr. Amit Patel", "Gastroenterology", "gastro", true⟩,
   ⟨"USR_DOC_RESP", "Dr. Sunita Reddy", "Pulmonology", "respiratory", true⟩,
   ⟨"USR_DOC_NEURO", "Dr. Vikram Singh", "Neurology", "neuro", true⟩,
   ⟨"USR_DOC_ORTHO", "Dr. Ravi Menon", "Orthopedics", "ortho", true⟩,
   ⟨"USR_DOC_DERM", "Dr. Meera Nair", "Dermatology", "derma", true⟩,
   ⟨"USR_DOC_ENT", "Dr. Kiran Desai", "ENT", "ent", true⟩]

/-- `AppointmentSchedulerAgent.DEPARTMENT_KEYWORDS` in source order. -/
def DEPARTMENT_KEYWORDS : List (String × List String) :=
  [("cardiac", ["chest", "heart", "cardiac", "angina", "palpitation",
                "blood pressure", "hypertension"]),
   ("gastro", ["stomach", "abdomen", "gastric", "nausea", "vomiting",
               "digestion", "acidity", "liver"]),
   ("respiratory", ["breathing", "cough", "lungs", "respiratory", "asthma",
                    "bronchitis", "pneumonia"]),
   ("neuro", ["headache", "migraine", "brain", "nerve", "dizziness",
              "seizure", "numbness", "memory"]),
   ("ortho", ["joint", "bone", "knee", "back pain", "fracture", "arthritis",
              "spine", "muscle"]),
   ("derma", ["skin", "rash", "allergy", "eczema", "acne", "fungal",
              "itching"]),
   ("ent", ["ear", "nose", "throat", "hearing", "sinus", "tonsil", "voice"])]

/-- The scheduling-slot ledger `_scheduled_slots`: per-day list of taken
slots, keyed by the (day-granularity) date. -/
abbrev Ledger := List (Int × List String)

/-- Slots recorded as taken for a date: `self._scheduled_slots.get(date, [])`. -/
def ledgerGet (L : Ledger) (date : Int) : List String :=
  (L.lookup date).getD []

/-- The slot-recording side effect at the end of `schedule`: create the
date's entry if absent, then append the chosen slot. -/
def ledgerRecord : Ledger → Int → String → Ledger
  | [], date, slot => [(date, [slot])]
  | (d, taken) :: rest, date, slot =>
    if d = date then (d, taken ++ [slot]) :: rest
    else (d, taken) :: ledgerRecord rest date slot

/-- The free part of the day's catalog, in catalog order: the
`available_slots` list of `_find_optimal_slot`. -/
def availableSlots (L : Ledger) (date : Int) : List String :=
  TIME_SLOTS.filter (fun s => !(ledgerGet L date).contains s)

/-- `AppointmentSchedulerAgent._find_optimal_slot`. -/
def findOptimalSlot (L : Ledger) (date : Int) (urgency : String)
    (preferred_time : Option String) : String :=
  let taken_slots := ledgerGet L date
  let available_slots := TIME_SLOTS.filter (fun s => !taken_slots.contains s)
  if available_slots.isEmpty ∧ (urgency = "critical" ∨ urgency = "high") then
    "EMERGENCY SLOT"
  else
    let available_slots :=
      if available_slots.isEmpty then TIME_SLOTS else available_slots
    if pyTruthy preferred_time ∧
        available_slots.contains (preferred_time.getD "") then
      preferred_time.getD ""
    else if urgency = "critical" ∨ urgency = "high" then
      available_slots.headD ""
    else
      match ["10:00 AM", "10:30 AM", "02:30 PM", "03:00 PM"].find?
          (fun slot => available_slots.contains slot) with
      | some slot => slot
      | none => available_slots.headD ""

/-- The `windows` table of `_get_schedule_window` (`dict.get` default 3). -/
def getScheduleWindow (urgency : String) : Int :=
  if urgency = "critical" then 0
  else if urgency = "high" then 1
  else if urgency = "medium" then 3
  else if urgency = "low" then 7
  else 3

/-- `AppointmentSchedulerAgent._find_optimal_date` at day granularity.
`preferred_date` is the outcome of parsing the preference string:
`none` = no preference given, `some none` = `strptime` raised (the
`except: pass` skips the preference), `some (some d)` = parsed day `d`. -/
def findOptimalDate (today : Int) (urgency : String) (window : Int)
    (preferred_date : Option (Option Int)) : Int :=
  if urgency = "critical" then today
  else if urgency = "high" then today + 1
  else
    match preferred_date with
    | some (some pref) =>
      if today ≤ pref ∧ pref - today ≤ window then pref
      else today + min window 2
    | _ => today + min window 2

/-- `AppointmentSchedulerAgent._determine_department`. -/
def determineDepartment (symptoms : List String) : String :=
  if symptoms.isEmpty then "general"
  else
    let symptoms_text := pyLower (String.intercalate " " symptoms)
    match DEPARTMENT_KEYWORDS.find?
        (fun entry => entry.2.any (fun keyword => pyIn keyword symptoms_text)) with
    | some entry => entry.1
    | none => "general"

open SymptomAnalyzer (Condition) in
/-- The per-condition keyword chain inside `_assign_doctor`: the first
condition whose name matches a specialty keyword group with a doctor
available in that department. -/
def assignDoctorByCondition (available_doctors : List Doctor) :
    List Condition → Option Doctor
  | [] => none
  | condition :: rest =>
    let condition_name := pyLower condition.name
    let deptPick (dept : String) : Option Doctor :=
      available_doctors.find? (fun d => d.department = dept)
    let attempt : Option Doctor :=
      if ["heart", "cardiac", "chest"].any (fun w => pyIn w condition_name) then
        deptPick "cardiac"
      else if ["gastric", "stomach", "liver"].any
          (fun w => pyIn w condition_name) then
        deptPick "gastro"
      else if ["respiratory", "breathing", "lung"].any
          (fun w => pyIn w condition_name) then
        deptPick "respiratory"
      else if ["neuro", "headache", "brain"].any
          (fun w => pyIn w condition_name) then
        deptPick "neuro"
      else if ["bone", "joint", "orthop"].any
          (fun w => pyIn w condition_name) then
        deptPick "ortho"
      else none
    match attempt with
    | some d => some d
    | none => assignDoctorByCondition available_doctors rest

open SymptomAnalyzer (Condition) in
/-- `AppointmentSchedulerAgent._assign_doctor`. -/
def assignDoctor (conditions : List Condition) (department : Option String) :
    Doctor :=
  let available_doctors := DOCTORS.filter (fun d => d.available)
  if available_doctors.isEmpty then
    DOCTORS.headD ⟨"", "", "", "", false⟩
  else
    let byDept : Option Doctor :=
      if pyTruthy department then
        available_doctors.find? (fun d => d.department = department.getD "")
      else none
    match byDept with
    | some d => d
    | none =>
      match assignDoctorByCondition available_doctors conditions with
      | some d => d
      | none =>
        match available_doctors.find? (fun d => d.department = "general") with
        | some d => d
        | none => available_doctors.headD ⟨"", "", "", "", false⟩

/-- `AppointmentSchedulerAgent._calculate_priority`:
`min(base + severity * 6, 100)` with tier base from the table
(`dict.get` default 20). -/
def calculatePriority (urgency : String) (severity : Nat) : Nat :=
  let base :=
    if urgency = "critical" then 40
    else if urgency = "high" then 30
    else if urgency = "medium" then 20
    else if urgency = "low" then 10
    else 20
  min (base + severity * 6) 100

open SymptomAnalyzer (Condition) in
/-- The `scheduling_decision` sub-dict of a successful `schedule` result
(the float `wait_time_hours` and the prose fields are not modelled). -/
structure SchedulingDecision where
  scheduled_date : Int
  scheduled_time : String
  assigned_doctor : Doctor
  priority_score : Nat
  urgency_level : String
  department : String
deriving Repr, DecidableEq

open SymptomAnalyzer (Condition) in
/-- `AppointmentSchedulerAgent.schedule`.  For the modelled input space
no statement of the `try` body raises, so the `except` branch is
unreachable and the outcome is always `ok`; the ledger write happens
after the result record is built. -/
def schedule (today : Int) (L : Ledger) (urgency_level : String)
    (severity_score : Nat) (preferred_date : Option (Option Int))
    (preferred_time : Option String) (conditions : List Condition)
    (symptoms : Option (List String)) (department : Option String) :
    AgentOutcome SchedulingDecision × Ledger :=
  let schedule_window := getScheduleWindow urgency_level
  let scheduled_date :=
    findOptimalDate today urgency_level schedule_window preferred_date
  let scheduled_time := findOptimalSlot L scheduled_date urgency_level
    preferred_time
  let department :=
    if ¬pyTruthy department ∧ (symptoms.getD []).length ≠ 0 then
      some (determineDepartment (symptoms.getD []))
    else department
  let assigned_doctor := assignDoctor conditions department
  let priority_score := calculatePriority urgency_level severity_score
  (.ok { scheduled_date := scheduled_date,
         scheduled_time := scheduled_time,
         assigned_doctor := assigned_doctor,
         priority_score := priority_score,
         urgency_level := urgency_level,
         department := (department.filter (· ≠ "")).getD "general" },
   ledgerRecord L scheduled_date scheduled_time)

/-- The `status` field `schedule` writes: `"scheduled"` on success. -/
def scheduleStatus : AgentOutcome SchedulingDecision → String
  | .ok _ => "scheduled"
  | .err _ => "error"

end Scheduler

example :
    Scheduler.findOptimalSlot [] 10 "critical" none = "09:00 AM" := by decide
example :
    Scheduler.findOptimalSlot [] 10 "high" (some "03:00 PM") = "03:00 PM" := by
  decide
example :
    Scheduler.findOptimalSlot [(10, Scheduler.TIME_SLOTS)] 10 "high" none =
      "EMERGENCY SLOT" := by decide
example :
    Scheduler.findOptimalSlot [] 10 "low" none = "10:00 AM" := by decide

namespace Triage

open SymptomAnalyzer (Condition)

/-- `TriageAgent._determine_care_level`: the threshold chain over the
urgency tier and the numeric severity score. -/
def determineCareLevel (urgency : String) (severity : Int) : Nat :=
  if urgency = "critical" ∨ 9 ≤ severity then 1
  else if urgency = "high" ∨ 7 ≤ severity then 2
  else if urgency = "medium" ∨ 5 ≤ severity then 3
  else if 3 ≤ severity then 4
  else 5

/-- `TriageAgent.DEPARTMENT_ROUTING` in source order. -/
def DEPARTMENT_ROUTING : List (String × List String) :=
  [("cardiac", ["chest pain", "heart", "palpitation", "cardiac"]),
   ("respiratory", ["breathing", "cough", "asthma", "pneumonia",
                    "respiratory"]),
   ("gastro", ["stomach", "nausea", "vomiting", "diarrhea", "abdomen"]),
   ("neuro", ["headache", "dizziness", "seizure", "stroke", "numbness"]),
   ("ortho", ["fracture", "bone", "joint", "sprain", "back pain"]),
   ("general", ["fever", "cold", "flu", "general"])]

/-- The department record `_route_to_department` returns. -/
structure Department where
  code : String
  name : String
  matched_keywords : List String
deriving Repr, DecidableEq

/-- `"cardiac".title() + " Department"` and friends: the department
display names as Python's `str.title` produces them. -/
def deptTitle (code : String) : String :=
  pyTitleWord code ++ " Department"

/-- `TriageAgent._route_to_department`. -/
def routeToDepartment (symptoms : List String) (conditions : List Condition) :
    Department :=
  let symptom_text :=
    pyLower (String.intercalate " " symptoms) ++
      (if conditions.isEmpty then ""
       else " " ++ String.intercalate " " (conditions.map (fun c => pyLower c.name)))
  match DEPARTMENT_ROUTING.find?
      (fun entry => entry.2.any (fun keyword => pyIn keyword symptom_text)) with
  | some entry =>
    { code := entry.1, name := deptTitle entry.1,
      matched_keywords := entry.2.filter (fun k => pyIn k symptom_text) }
  | none => { code := "general", name := "General Medicine",
              matched_keywords := [] }

/-- The escalation record of `_check_escalation`. -/
structure Escalation where
  needed : Bool
  type : Option String
  reason : Option String
  notify : List String
deriving Repr, DecidableEq

/-- The `critical_triggers` containment check of `_check_escalation`:
one of the fixed phrases occurs in the joined lowercased symptom
text. -/
def criticalTriggerIn (symptoms : List String) : Bool :=
  ["unconscious", "not breathing", "severe bleeding", "chest pain"].any
    (fun trigger => pyIn trigger (pyLower (String.intercalate " " symptoms)))

/-- `TriageAgent._check_escalation`: the care-level branch fills the
record, and a critical trigger phrase afterwards overwrites it. -/
def checkEscalation (care_level : Nat) (symptoms : List String) : Escalation :=
  let base : Escalation := { needed := false, type := none, reason := none,
                             notify := [] }
  let byLevel : Escalation :=
    if care_level = 1 then
      { needed := true, type := some "senior_doctor",
        reason := some "Critical care level requires senior oversight",
        notify := ["on_call_doctor", "department_head", "nursing_supervisor"] }
    else if care_level = 2 then
      { needed := true, type := some "on_call_doctor",
        reason := some "Emergency care level requires doctor notification",
        notify := ["on_call_doctor", "assigned_nurse"] }
    else base
  if criticalTriggerIn symptoms then
    { needed := true, type := some "emergency_team",
      reason := some "Critical symptom detected",
      notify := ["emergency_team", "on_call_doctor"] }
  else byLevel

/-- The `wait_times` table of `_estimate_wait_time` (`dict.get`
default 60). -/
def estimateWaitTime (care_level : Nat) : Nat :=
  if care_level = 1 then 0
  else if care_level = 2 then 10
  else if care_level = 3 then 30
  else if care_level = 4 then 60
  else if care_level = 5 then 120
  else 60

/-- One entry of the triage priority queue `_triage_queue`. -/
structure QueueEntry where
  id : Option String
  care_level : Nat
deriving Repr, DecidableEq

/-- The triage priority queue: ascending by care level (1 = most
urgent first). -/
abbrev Queue := List QueueEntry

/-- The insertion index `_add_to_queue` computes: the first position
whose entry has a strictly larger care level, else the queue's end. -/
def insertPos : Queue → Nat → Nat
  | [], _ => 0
  | item :: rest, care_level =>
    if care_level < item.care_level then 0 else 1 + insertPos rest care_level

/-- `TriageAgent._add_to_queue`: insert and return the 1-indexed
position. -/
def addToQueue (queue : Queue) (appointment_id : Option String)
    (care_level : Nat) : Nat × Queue :=
  let position := insertPos queue care_level
  (position + 1,
   queue.take position ++ ⟨appointment_id, care_level⟩ :: queue.drop position)

/-- The `triage_assessment` fields of a successful `triage` result. -/
structure TriageAssessment where
  care_level : Nat
  department : Department
  estimated_wait_minutes : Nat
  urgency_classification : String
  escalation : Escalation
  queue_position : Nat
deriving Repr, DecidableEq

/-- `TriageAgent.triage`.  `" ".join(symptoms)` raises `TypeError` on a
non-string symptom; the `try` turns that into the error record and the
queue is left untouched. -/
def triage (queue : Queue) (appointment_id : Option String)
    (symptoms : List (Option String)) (urgency_level : String)
    (severity_score : Int) (conditions : List Condition) :
    AgentOutcome TriageAssessment × Queue :=
  let care_level := determineCareLevel urgency_level severity_score
  match symptoms.mapM id with
  | none => (.err "TypeError: join", queue)
  | some syms =>
    let department := routeToDepartment syms conditions
    let escalation := checkEscalation care_level syms
    let wait_time := estimateWaitTime care_level
    let (queue_position, queue) := addToQueue queue appointment_id care_level
    (.ok { care_level := care_level, department := department,
           estimated_wait_minutes := wait_time,
           urgency_classification := urgency_level,
           escalation := escalation, queue_position := queue_position },
     queue)

/-- The `status` field `triage` writes: `"triaged"` on success. -/
def triageStatus : AgentOutcome TriageAssessment → String
  | .ok _ => "triaged"
  | .err _ => "error"

end Triage

namespace FollowUp

open SymptomAnalyzer (Condition)

/-- One tier's entry of `FollowUpAgent.FOLLOWUP_RULES`. -/
structure FollowupRules where
  initial_followup_days : Int
  reminder_frequency_days : Int
  total_followups : Nat
  channels : List String
deriving Repr, DecidableEq

/-- `FollowUpAgent.FOLLOWUP_RULES`. -/
def FOLLOWUP_RULES : List (String × FollowupRules) :=
  [("high_urgency", ⟨1, 2, 5, ["call", "sms"]⟩),
   ("medium_urgency", ⟨3, 7, 3, ["sms", "email"]⟩),
   ("low_urgency", ⟨7, 14, 2, ["email"]⟩)]

/-- One generated follow-up entry. -/
structure FollowupEntry where
  followup_number : Nat
  scheduled_date : Int
  type : String
  priority : String
deriving Repr, DecidableEq

/-- The generation loop of `_generate_schedule`: `remaining` entries
starting at index `i`, with `current_date` advanced by the recurrence
interval after each entry. -/
def genScheduleLoop (current_date interval : Int) :
    Nat → Nat → List FollowupEntry
  | 0, _ => []
  | remaining + 1, i =>
    { followup_number := i + 1,
      scheduled_date := current_date,
      type := if i = 0 then "check_in" else "follow_up",
      priority := if i = 0 then "high" else "normal" } ::
      genScheduleLoop (current_date + interval) interval remaining (i + 1)

/-- `FollowUpAgent._generate_schedule` at day granularity; a missing
visit date falls back to the current day. -/
def generateSchedule (today : Int) (visit_date : Option Int)
    (rules : FollowupRules) : List FollowupEntry :=
  let base_date := visit_date.getD today
  genScheduleLoop (base_date + rules.initial_followup_days)
    rules.reminder_frequency_days rules.total_followups 0

/-- The `followup_plan` fields of a successful `create_followup_plan`
result (reminders, care instructions, monitoring plan and escalation
triggers are presentational output lists no verified claim reads; they
are not modelled, nor is the `_scheduled_followups` bookkeeping store
that only `get_pending_followups` reads). -/
structure FollowupPlan where
  schedule : List FollowupEntry
  total_followups : Nat
  urgency_level : String
  rules_applied : String
deriving Repr, DecidableEq

/-- `FollowUpAgent.create_followup_plan`.  With day-granularity dates the
`strptime` call cannot raise, so the outcome is always `ok`. -/
def createFollowupPlan (today : Int) (urgency_level : String)
    (visit_date : Option Int) : AgentOutcome FollowupPlan :=
  let urgency_key :=
    if urgency_level = "high" ∨ urgency_level = "medium" ∨
        urgency_level = "low" then
      urgency_level ++ "_urgency"
    else "medium_urgency"
  let rules := (FOLLOWUP_RULES.lookup urgency_key).getD ⟨3, 7, 3, ["sms", "email"]⟩
  let schedule := generateSchedule today visit_date rules
  .ok { schedule := schedule, total_followups := schedule.length,
        urgency_level := urgency_level, rules_applied := urgency_key }

/-- The `status` field `create_followup_plan` writes: `"active"` on
success. -/
def followupStatus : AgentOutcome FollowupPlan → String
  | .ok _ => "active"
  | .err _ => "error"

end FollowUp

example :
    Triage.determineCareLevel "low" 10 = 1 := by decide
example :
    (Triage.checkEscalation 2 ["chest pain"]).notify =
      ["emergency_team", "on_call_doctor"] := by decide
example :
    (FollowUp.generateSchedule 0 (some 100) ⟨3, 7, 3, ["sms", "email"]⟩).map
      (·.scheduled_date) = [103, 110, 117] := by decide

namespace Orchestrator

open SymptomAnalyzer Scheduler Triage FollowUp

/-- The intake dict handed to `AgentOrchestrator.process_appointment`;
a `none` symptom element models a non-string value in the raw list. -/
structure AppointmentData where
  id : Option String
  patient_name : Option String
  symptoms : List (Option String)
  symptom_details : String
  severity : Option String
  duration : Option String
  preferred_date : Option (Option Int)
  preferred_time : Option String
deriving Repr, DecidableEq

/-- One entry of the `stages` list of a workflow result: the stage
index, display name and the `status` field read off the stage's result
dict (`result.get('status', 'completed')`). -/
structure StageRecord where
  stage : Nat
  name : String
  status : String
deriving Repr, DecidableEq

/-- `AgentOrchestrator.process_appointment`'s workflow result: the stage
records, the final status, and the four retained stage results (the
`result` field of each stage record). -/
structure WorkflowResult where
  stages : List StageRecord
  final_status : String
  analysis_result : AgentOutcome Analysis
  schedule_result : AgentOutcome SchedulingDecision
  triage_result : AgentOutcome TriageAssessment
  followup_result : AgentOutcome FollowupPlan
deriving Repr, DecidableEq

/-- `AgentOrchestrator.process_appointment`, threading the two shared
mutable resources (scheduling-slot ledger, triage queue).  Every stage
call catches its own exceptions and returns an error record instead of
raising, so for the modelled input space the orchestrator's `except`
branch is unreachable: the body runs all four stages whatever the
stage statuses say, and `final_status` is set to `"completed"`. -/
def processAppointment (today : Int) (L : Ledger) (Q : Queue)
    (inp : AppointmentData) : WorkflowResult × Ledger × Queue :=
  let analysis_result := analyze
    { symptoms := inp.symptoms, symptom_details := inp.symptom_details,
      severity := inp.severity, duration := inp.duration }
  let stage1 : StageRecord :=
    ⟨1, "Symptom Analysis", analyzeStatus analysis_result⟩
  let urgency := match analysis_result with
    | .ok a => a.urgency_level
    | .err _ => "medium"
  let severity_score := match analysis_result with
    | .ok a => a.severity_score
    | .err _ => 5
  let conditions := match analysis_result with
    | .ok a => a.possible_conditions
    | .err _ => []
  let (schedule_result, L) := Scheduler.schedule today L urgency
    severity_score inp.preferred_date inp.preferred_time conditions none none
  let stage2 : StageRecord :=
    ⟨2, "Auto-Scheduling", scheduleStatus schedule_result⟩
  let scheduled_date := match schedule_result with
    | .ok s => some s.scheduled_date
    | .err _ => none
  let (triage_result, Q) := Triage.triage Q inp.id inp.symptoms urgency
    severity_score conditions
  let stage3 : StageRecord := ⟨3, "Triage", triageStatus triage_result⟩
  let followup_result := createFollowupPlan today urgency scheduled_date
  let stage4 : StageRecord :=
    ⟨4, "Follow-Up Plan", followupStatus followup_result⟩
  ({ stages := [stage1, stage2, stage3, stage4],
     final_status := "completed",
     analysis_result := analysis_result,
     schedule_result := schedule_result,
     triage_result := triage_result,
     followup_result := followup_result }, L, Q)

end Orchestrator

example :
    (Orchestrator.processAppointment 0 [] []
      { id := some "A1", patient_name := some "P", symptoms := [none],
        symptom_details := "", severity := none, duration := none,
        preferred_date := none, preferred_time := none }).1.final_status =
      "completed" := by decide

example :
    ((Orchestrator.processAppointment 0 [] []
      { id := some "A1", patient_name := some "P", symptoms := [none],
        symptom_details := "", severity := none, duration := none,
        preferred_date := none, preferred_time := none }).1.stages.map
        (·.status)) = ["error", "scheduled", "error", "active"] := by decide

namespace Docs

/-- `VisitStatus` (`app/schemas/medical.py`). -/
inductive VisitStatus where
  | PENDING
  | PROCESSING
  | TRANSCRIBING
  | ANALYZING
  | COMPLETED
  | FAILED
deriving Repr, DecidableEq

open VisitStatus

/-- The fields of a visit record the documentation pipeline touches. -/
structure Visit where
  status : VisitStatus
  audio_s3_key : Option String
  transcript : Option String
  error_message : Option String
deriving Repr, DecidableEq

/-- One `updates` dict passed to `InMemoryDBClient.update_visit`:
each present key overwrites the stored field. -/
structure VisitUpdates where
  status : Option VisitStatus := none
  audio_s3_key : Option String := none
  transcript : Option String := none
  error_message : Option String := none
deriving Repr, DecidableEq

/-- Python `self._data[key].update(updates)` on the modelled fields. -/
def applyUpdates (v : Visit) (u : VisitUpdates) : Visit :=
  { status := u.status.getD v.status,
    audio_s3_key := match u.audio_s3_key with
      | some k => some k
      | none => v.audio_s3_key,
    transcript := match u.transcript with
      | some t => some t
      | none => v.transcript,
    error_message := match u.error_message with
      | some e => some e
      | none => v.error_message }

/-- The in-memory visit store, keyed like `CLINIC#{id}|{SK}`. -/
abbrev VisitStore := List (String × Visit)

/-- `InMemoryDBClient.update_visit`: if the key exists the updates are
merged in unconditionally — there is no guard on the current status. -/
def updateVisit (store : VisitStore) (key : String) (u : VisitUpdates) :
    VisitStore :=
  store.map (fun entry =>
    if entry.1 = key then (entry.1, applyUpdates entry.2 u) else entry)

/-- Outcomes of the five external steps of `process_audio_pipeline`
(`none` = the call raised): transcription, translation, SOAP-note
generation, differential diagnosis, red-flag detection. -/
structure PipelineEnv where
  transcribe : Option String
  translate : Option String
  soap : Option String
  differential : Option String
  red_flags : Option String
deriving Repr, DecidableEq

/-- The ordered list of `update_visit` calls one run of
`process_audio_pipeline` issues: TRANSCRIBING is set first, the
transcript is stored, ANALYZING is set, and the run ends with a
COMPLETED update or — from the `except` branch, on the first raising
step — a FAILED update carrying the error message. -/
def pipelineUpdates (env : PipelineEnv) : List VisitUpdates :=
  let failUpd (msg : String) : VisitUpdates :=
    { status := some FAILED, error_message := some msg }
  { status := some TRANSCRIBING } ::
    match env.transcribe with
    | none => [failUpd "transcription failed"]
    | some transcript_text =>
      { transcript := some transcript_text } ::
        { status := some ANALYZING } ::
          match env.translate with
          | none => [failUpd "translation failed"]
          | some _ =>
            match env.soap with
            | none => [failUpd "soap generation failed"]
            | some _ =>
              match env.differential with
              | none => [failUpd "differential failed"]
              | some _ =>
                match env.red_flags with
                | none => [failUpd "red flag detection failed"]
                | some _ => [{ status := some COMPLETED }]

/-- The `update_visit` call of the `process_audio` endpoint: the status
is set to PROCESSING (and the audio key attached) with no check of the
visit's current status. -/
def processAudioEndpointUpdate (audio_s3_key : String) : VisitUpdates :=
  { status := some PROCESSING, audio_s3_key := some audio_s3_key }

/-- The status values a visit passes through in one intake-and-process
run: PENDING at creation, PROCESSING from the endpoint, then the
pipeline's status writes. -/
def statusTrace (env : PipelineEnv) : List VisitStatus :=
  PENDING :: PROCESSING :: (pipelineUpdates env).filterMap (·.status)

/-- Position of a status in the forward chain of the documentation
state machine. -/
def statusRank : VisitStatus → Nat
  | PENDING => 0
  | PROCESSING => 1
  | TRANSCRIBING => 2
  | ANALYZING => 3
  | COMPLETED => 4
  | FAILED => 5

/-- One admissible forward move of the documentation state machine: from
a non-terminal status, either to the immediately next non-FAILED status
of the chain, or directly to FAILED. -/
def forwardStep (a b : VisitStatus) : Prop :=
  (a ≠ COMPLETED ∧ a ≠ FAILED) ∧
    ((b ≠ FAILED ∧ statusRank b = statusRank a + 1) ∨ b = FAILED)

instance : DecidableRel forwardStep := fun _ _ => by
  unfold forwardStep; infer_instance

end Docs

example :
    Docs.statusTrace ⟨some "t", some "tr", some "s", some "d", some "rf"⟩ =
      [.PENDING, .PROCESSING, .TRANSCRIBING, .ANALYZING, .COMPLETED] := by
  decide

example :
    Docs.statusTrace ⟨none, none, none, none, none⟩ =
      [.PENDING, .PROCESSING, .TRANSCRIBING, .FAILED] := by decide

namespace WS

/-- A live duplex connection handle. -/
abbrev Conn := Nat

/-- `ConnectionManager.active_connections`: group key (clinic id) to the
set of live subscriber connections.  The Python `set` is modelled as a
duplicate-free list; only membership matters to the verified claims. -/
abbrev Registry := List (String × List Conn)

/-- Subscribers currently registered to a group
(`active_connections.get(group)`, absent key = no subscribers). -/
def members (reg : Registry) (group : String) : List Conn :=
  (reg.lookup group).getD []

/-- `ConnectionManager.connect`: create the group's entry if absent,
then add the connection to its set (`set.add`: no duplicate). -/
def connect (reg : Registry) (c : Conn) (group : String) : Registry :=
  match reg with
  | [] => [(group, [c])]
  | (g, conns) :: rest =>
    if g = group then
      (g, if conns.contains c then conns else conns ++ [c]) :: rest
    else (g, conns) :: connect rest c group

/-- `ConnectionManager.disconnect`: discard the connection; drop the
group's entry when its set becomes empty. -/
def disconnect (reg : Registry) (c : Conn) (group : String) : Registry :=
  match reg with
  | [] => []
  | (g, conns) :: rest =>
    if g = group then
      let conns := conns.filter (fun x => x ≠ c)
      if conns.isEmpty then rest else (g, conns) :: rest
    else (g, conns) :: disconnect rest c group

/-- `ConnectionManager.broadcast_to_clinic` for one group: each
registered subscriber is sent the message; `ok` says whose `send_json`
succeeds; failing subscribers are silently removed from the set.
Returns the new registry and the connections actually delivered to. -/
def broadcast (ok : Conn → Bool) (reg : Registry) (group : String) :
    Registry × List Conn :=
  match reg with
  | [] => ([], [])
  | (g, conns) :: rest =>
    if g = group then
      ((g, conns.filter ok) :: rest, conns.filter ok)
    else
      let (rest2, delivered) := broadcast ok rest group
      ((g, conns) :: rest2, delivered)

/-- One operation on the connection manager. -/
inductive Op where
  | connect (c : Conn) (group : String)
  | disconnect (c : Conn) (group : String)
  | broadcast (group : String) (message : String)
deriving Repr, DecidableEq

/-- Effect of one operation on the registry (`broadcast` drops the
subscribers whose delivery failed). -/
def stepReg (ok : Conn → Bool) (reg : Registry) : Op → Registry
  | .connect c g => connect reg c g
  | .disconnect c g => disconnect reg c g
  | .broadcast g _ => (broadcast ok reg g).1

/-- Run a list of operations; the result pairs the final registry with
one delivery list per operation (entries `(conn, group, message)`),
positionally aligned with the operation list. -/
def run (ok : Conn → Bool) (reg : Registry) :
    List Op → Registry × List (List (Conn × String × String))
  | [] => (reg, [])
  | op :: rest =>
    let delivered : List (Conn × String × String) :=
      match op with
      | .broadcast g m => ((broadcast ok reg g).2).map (fun c => (c, g, m))
      | _ => []
    let (regF, logs) := run ok (stepReg ok reg op) rest
    (regF, delivered :: logs)

/-- The registry state just before the operation at index `i`. -/
def stateBefore (ok : Conn → Bool) (reg : Registry) (ops : List Op)
    (i : Nat) : Registry :=
  (ops.take i).foldl (stepReg ok) reg

/-- Deliveries produced by the operation at index `i`. -/
def deliveriesAt (ok : Conn → Bool) (reg : Registry) (ops : List Op)
    (i : Nat) : List (Conn × String × String) :=
  ((run ok reg ops).2.get? i).getD []

end WS

example :
    WS.deliveriesAt (fun _ => true) []
      [.connect 1 "A", .connect 2 "A", .connect 3 "B", .broadcast "A" "m"]
      3 = [(1, "A", "m"), (2, "A", "m")] := by decide
example :
    WS.deliveriesAt (fun _ => true) []
      [.connect 1 "A", .broadcast "B" "m", .connect 2 "B"] 1 = [] := by decide

/-! ## Claim theorems -/

section CareLevel

open Triage

/-- The care level is the minimum of an urgency-implied level and a
severity-implied level, both read off the threshold chain. -/
lemma determineCareLevel_eq_min (u : String) (s : Int) :
    determineCareLevel u s =
      min (if u = "critical" then 1 else if u = "high" then 2
           else if u = "medium" then 3 else 5)
          (if 9 ≤ s then 1 else if 7 ≤ s then 2 else if 5 ≤ s then 3
           else if 3 ≤ s then 4 else 5) := by
  by_cases hc : u = "critical"
  · subst hc
    simp only [determineCareLevel, String.reduceEq, true_or, if_true,
      if_false, eq_self_iff_true]
    split_ifs <;> omega
  · by_cases hh : u = "high"
    · subst hh
      simp only [determineCareLevel, String.reduceEq, false_or, if_true,
        if_false, eq_self_iff_true, true_or]
      split_ifs <;> omega
    · by_cases hm : u = "medium"
      · subst hm
        simp only [determineCareLevel, String.reduceEq, false_or, if_true,
          if_false, eq_self_iff_true, true_or]
        split_ifs <;> omega
      · simp only [determineCareLevel, hc, hh, hm, false_or, if_false]
        split_ifs <;> omega

/-- The urgency-implied level is antitone in the tier rank. -/
lemma urgencyLevel_antitone {uA uB : String}
    (h : urgencyRank uB ≤ urgencyRank uA) :
    (if uA = "critical" then 1 else if uA = "high" then 2
     else if uA = "medium" then 3 else (5 : Nat)) ≤
      (if uB = "critical" then 1 else if uB = "high" then 2
       else if uB = "medium" then 3 else 5) := by
  unfold urgencyRank at h
  by_cases hac : uA = "critical" <;> by_cases hah : uA = "high" <;>
    by_cases ham : uA = "medium" <;>
    by_cases hbc : uB = "critical" <;> by_cases hbh : uB = "high" <;>
    by_cases hbm : uB = "medium" <;>
    simp_all

/-- C6: the triage care level follows the documented thresholds
(critical or severity at least 9 gives level 1; high or at least 7
gives 2; medium or at least 5 gives 3; at least 3 gives 4; else 5), and
is antitone in the pair (urgency tier, severity): whenever input A
dominates input B in tier rank and in severity, A's care level is at
most B's. -/
theorem c6_care_level_thresholds_monotone (uA uB : String) (sA sB : Int)
    (hu : urgencyRank uB ≤ urgencyRank uA) (hs : sB ≤ sA) :
    (Triage.determineCareLevel uA sA =
      if uA = "critical" ∨ 9 ≤ sA then 1
      else if uA = "high" ∨ 7 ≤ sA then 2
      else if uA = "medium" ∨ 5 ≤ sA then 3
      else if 3 ≤ sA then 4
      else 5) ∧
    Triage.determineCareLevel uA sA ≤ Triage.determineCareLevel uB sB := by
  refine ⟨rfl, ?_⟩
  rw [determineCareLevel_eq_min, determineCareLevel_eq_min]
  refine min_le_min (urgencyLevel_antitone hu) ?_
  split_ifs <;> omega

/-- Concrete instance of `c6_care_level_thresholds_monotone`:
(critical, 9) dominates (medium, 5) and gets care level 1 versus 3. -/
theorem c6_witness :
    urgencyRank "medium" ≤ urgencyRank "critical" ∧ (5 : Int) ≤ 9 ∧
      Triage.determineCareLevel "critical" 9 ≤
        Triage.determineCareLevel "medium" 5 ∧
      Triage.determineCareLevel "critical" 9 = 1 ∧
      Triage.determineCareLevel "medium" 5 = 3 :=
  ⟨by decide, by decide,
   (c6_care_level_thresholds_monotone "critical" "medium" 9 5
      (by decide) (by decide)).2,
   by decide, by decide⟩

end CareLevel

section FollowUpSchedule

open FollowUp

/-- Shape of the follow-up generation loop: entry `k` (0-based) of a
run of `remaining` entries starting at date `c` carries date
`c + k * interval`. -/
lemma genScheduleLoop_get? (c interval : Int) (remaining i k : Nat)
    (hk : k < remaining) :
    (genScheduleLoop c interval remaining i).get? k =
      some { followup_number := i + k + 1,
             scheduled_date := c + k * interval,
             type := if i + k = 0 then "check_in" else "follow_up",
             priority := if i + k = 0 then "high" else "normal" } := by
  induction remaining generalizing c i k with
  | zero => omega
  | succ r ih =>
    cases k with
    | zero => simp [genScheduleLoop]
    | succ k =>
      have hk2 : k < r := by omega
      rw [genScheduleLoop, List.get?_cons_succ, ih (c + interval) (i + 1) k hk2]
      have hidx : i + 1 + k = i + (k + 1) := by omega
      have hdate : c + interval + (k : Int) * interval =
          c + ((k : Nat) + 1 : Nat) * interval := by push_cast; ring
      rw [hidx, hdate]

/-- Length of the follow-up generation loop. -/
lemma genScheduleLoop_length (c interval : Int) (remaining i : Nat) :
    (genScheduleLoop c interval remaining i).length = remaining := by
  induction remaining generalizing c i with
  | zero => rfl
  | succ r ih => simp [genScheduleLoop, ih]

end FollowUpSchedule

section FollowUpClaims

open FollowUp

/-- C7: for every urgency tier that has a configured follow-up rule
(high, medium, low), the generated plan has exactly the rule's
total-count entries, and entry k (0-based) is dated
visit date + initial offset + k * recurrence interval. -/
theorem c7_followup_count_and_dates (today visit_date : Int)
    (urgency : String) (rules : FollowupRules) (k : Nat)
    (hu : urgency = "high" ∨ urgency = "medium" ∨ urgency = "low")
    (hr : (FOLLOWUP_RULES.lookup (urgency ++ "_urgency")).getD
      ⟨3, 7, 3, ["sms", "email"]⟩ = rules)
    (hk : k < rules.total_followups) :
    ∀ plan, createFollowupPlan today urgency (some visit_date) = .ok plan →
      plan.schedule.length = rules.total_followups ∧
      (plan.schedule.get? k).map (·.scheduled_date) =
        some (visit_date + rules.initial_followup_days +
          (k : Int) * rules.reminder_frequency_days) := by
  intro plan hplan
  have hsched : plan.schedule =
      generateSchedule today (some visit_date) rules := by
    rcases hu with h | h | h <;> subst h <;>
      simp only [createFollowupPlan, String.reduceEq, true_or, or_true,
        false_or, or_false, if_true, AgentOutcome.ok.injEq] at hplan <;>
      rw [← hplan] <;>
      simp only [← hr]
  have hlen : plan.schedule.length = rules.total_followups := by
    rw [hsched]; exact genScheduleLoop_length _ _ _ _
  refine ⟨hlen, ?_⟩
  rw [hsched]
  unfold generateSchedule
  rw [genScheduleLoop_get? _ _ _ _ _ hk]
  simp only [Option.map_some', Option.getD_some, Option.some.injEq]

/-- Concrete instance of `c7_followup_count_and_dates`: the high tier's
rule is (offset 1, interval 2, count 5), and follow-up entry 2 of a plan
for visit day 100 falls on day 105 in a 5-entry schedule. -/
theorem c7_witness :
    ((FOLLOWUP_RULES.lookup "high_urgency").getD ⟨3, 7, 3, ["sms", "email"]⟩ =
       ⟨1, 2, 5, ["call", "sms"]⟩) ∧
    ∀ plan, createFollowupPlan 0 "high" (some 100) = .ok plan →
      plan.schedule.length = 5 ∧
      (plan.schedule.get? 2).map (·.scheduled_date) = some 105 :=
  ⟨by decide, fun plan h =>
    c7_followup_count_and_dates 0 100 "high" ⟨1, 2, 5, ["call", "sms"]⟩ 2
      (Or.inl rfl) (by decide) (by decide) plan h⟩

end FollowUpClaims

section SeverityScore

open SymptomAnalyzer

/-- The classifier only ever emits the four urgency tiers. -/
lemma determineUrgency_mem (symptoms : List String) (details : String) :
    determineUrgency symptoms details = "critical" ∨
      determineUrgency symptoms details = "high" ∨
      determineUrgency symptoms details = "medium" ∨
      determineUrgency symptoms details = "low" := by
  unfold determineUrgency
  dsimp only
  split_ifs <;> simp

/-- C10: every successful analysis carries a severity score that is a
natural number at most 10; when the severity string holds a numeric
hint the score is that first integer clamped to 10, and with no usable
hint the score is the tier default (critical 10, high 8, medium 5,
low 3) of the reported urgency level, which is always one of the four
tiers. -/
theorem c10_severity_score_range (inp : AnalyzeInput)
    (a : Analysis) (h : analyze inp = .ok a) :
    a.severity_score ≤ 10 ∧
    (∀ n, pyTruthy inp.severity = true →
      firstIntOf (inp.severity.getD "") = some n →
      a.severity_score = min n 10) ∧
    ((pyTruthy inp.severity = false ∨
        firstIntOf (inp.severity.getD "") = none) →
      ((a.urgency_level = "critical" → a.severity_score = 10) ∧
       (a.urgency_level = "high" → a.severity_score = 8) ∧
       (a.urgency_level = "medium" → a.severity_score = 5) ∧
       (a.urgency_level = "low" → a.severity_score = 3))) ∧
    (a.urgency_level = "critical" ∨ a.urgency_level = "high" ∨
      a.urgency_level = "medium" ∨ a.urgency_level = "low") := by
  rcases hm : inp.symptoms.mapM id with _ | syms <;>
    rw [analyze, hm] at h
  · exact absurd h (by simp)
  · simp only [AgentOutcome.ok.injEq] at h
    have hsev : a.severity_score =
        extractSeverityScore inp.severity a.urgency_level := by
      rw [← h]
    have hurg : a.urgency_level =
        determineUrgency (syms.map fun s => pyStrip (pyLower s))
          (pyLower inp.symptom_details) := by
      rw [← h]
    have htier : a.urgency_level = "critical" ∨ a.urgency_level = "high" ∨
        a.urgency_level = "medium" ∨ a.urgency_level = "low" := by
      rw [hurg]; exact determineUrgency_mem _ _
    have hdef : ∀ u : String, urgencyDefault u ≤ 10 := by
      intro u; unfold urgencyDefault; split_ifs <;> omega
    refine ⟨?_, ?_, ?_, htier⟩
    · rw [hsev]
      unfold extractSeverityScore
      cases htr : pyTruthy inp.severity
      · simp only [Bool.false_eq_true, if_false]
        exact hdef _
      · simp only [if_true]
        rcases hfi : firstIntOf (inp.severity.getD "") with _ | n
        · exact hdef _
        · simp only []
          omega
    · intro n htr hfi
      rw [hsev]
      unfold extractSeverityScore
      rw [htr, hfi]
      simp
    · intro hnone
      rw [hsev]
      unfold extractSeverityScore
      cases htr : pyTruthy inp.severity
      · simp only [Bool.false_eq_true, if_false]
        unfold urgencyDefault
        refine ⟨fun h1 => ?_, fun h1 => ?_, fun h1 => ?_, fun h1 => ?_⟩ <;>
          simp [h1, String.reduceEq]
      · rcases hnone with hf | hfi0
        · rw [htr] at hf
          exact absurd hf (by simp)
        · simp only [if_true, hfi0]
          unfold urgencyDefault
          refine ⟨fun h1 => ?_, fun h1 => ?_, fun h1 => ?_, fun h1 => ?_⟩ <;>
            simp [h1, String.reduceEq]

/-- Sample input for the severity-score claim: a numeric hint "7/10". -/
def c10SampleInput : AnalyzeInput :=
  { symptoms := [some "headache"], symptom_details := "",
    severity := some "7/10 pain", duration := none }

/-- The analysis `c10SampleInput` evaluates to. -/
def c10SampleAnalysis : Analysis :=
  { urgency_level := "low", urgency_score := 2, severity_score := 7,
    possible_conditions :=
      [⟨"General Medical Consultation Required", ⟨1, 2⟩, "low",
        ["General Health Checkup"]⟩],
    requires_immediate_attention := false }

/-- Concrete instance of `c10_severity_score_range`: severity string
"7/10 pain" parses to hint 7 and yields score 7, at most 10. -/
theorem c10_witness :
    analyze c10SampleInput = .ok c10SampleAnalysis ∧
      c10SampleAnalysis.severity_score ≤ 10 ∧
      c10SampleAnalysis.severity_score = min 7 10 :=
  ⟨by decide,
   (c10_severity_score_range c10SampleInput c10SampleAnalysis (by decide)).1,
   (c10_severity_score_range c10SampleInput c10SampleAnalysis (by decide)).2.1
     7 (by decide) (by decide)⟩

end SeverityScore

section BreathingOverride

open SymptomAnalyzer

/-- C2 counterexample: "trouble breathing" contains a breathing phrase
together with the distress qualifier "trouble", yet the classifier
returns "low", strictly below HIGH — there is no qualifier-based
override rule in the code. -/
theorem c2_counterexample :
    pyIn "breathing" (allText ["trouble breathing"] "") = true ∧
      pyIn "trouble" (allText ["trouble breathing"] "") = true ∧
      determineUrgency ["trouble breathing"] "" = "low" ∧
      urgencyRank (determineUrgency ["trouble breathing"] "") <
        urgencyRank "high" := by decide

/-- C2 amended: the phrases that do force at least HIGH are the exact
red-flag phrases "difficulty breathing" and "shortness of breath" — any
input whose concatenated symptom/detail text contains one of them is
classified "critical" (so at least HIGH); the qualifiers "trouble" and
"can't" have no such effect. -/
theorem c2_breathing_phrases_force_critical (symptoms : List String)
    (details : String)
    (h : pyIn "difficulty breathing" (allText symptoms details) = true ∨
      pyIn "shortness of breath" (allText symptoms details) = true) :
    determineUrgency symptoms details = "critical" ∧
      urgencyRank "high" ≤ urgencyRank (determineUrgency symptoms details) := by
  have hany : (HIGH_URGENCY_SYMPTOMS.any
      (fun critical => pyIn critical (allText symptoms details))) = true := by
    rcases h with h | h
    · exact List.any_eq_true.mpr ⟨"difficulty breathing", by decide, h⟩
    · exact List.any_eq_true.mpr ⟨"shortness of breath", by decide, h⟩
  have hres : determineUrgency symptoms details = "critical" := by
    unfold determineUrgency
    dsimp only
    rw [if_pos hany]
  exact ⟨hres, by rw [hres]; decide⟩

/-- Concrete instance of `c2_breathing_phrases_force_critical`, at the
input named by the claim: symptoms ["shortness of breath"], detail
"difficulty breathing". -/
theorem c2_witness :
    determineUrgency ["shortness of breath"] "difficulty breathing" =
      "critical" ∧
      urgencyRank "high" ≤
        urgencyRank (determineUrgency ["shortness of breath"]
          "difficulty breathing") :=
  c2_breathing_phrases_force_critical ["shortness of breath"]
    "difficulty breathing" (Or.inl (by decide))

end BreathingOverride

section SlotSelection

open Scheduler

/-- The slot-selection continuation of `_find_optimal_slot`, as a
function of the free-slot list (for reasoning; `findOptimalSlot` is
definitionally `slotChoice` applied to `availableSlots`). -/
def slotChoice (A : List String) (urgency : String)
    (preferred_time : Option String) : String :=
  if A.isEmpty ∧ (urgency = "critical" ∨ urgency = "high") then
    "EMERGENCY SLOT"
  else
    let A2 := if A.isEmpty then TIME_SLOTS else A
    if pyTruthy preferred_time ∧ A2.contains (preferred_time.getD "") then
      preferred_time.getD ""
    else if urgency = "critical" ∨ urgency = "high" then
      A2.headD ""
    else
      match ["10:00 AM", "10:30 AM", "02:30 PM", "03:00 PM"].find?
          (fun slot => A2.contains slot) with
      | some slot => slot
      | none => A2.headD ""

lemma findOptimalSlot_eq_slotChoice (L : Ledger) (date : Int) (u : String)
    (p : Option String) :
    findOptimalSlot L date u p = slotChoice (availableSlots L date) u p := rfl

lemma headD_mem {l : List String} (h : l ≠ []) : l.headD "" ∈ l := by
  cases l with
  | nil => exact absurd rfl h
  | cons a t => simp [List.headD]

/-- Whatever branch fires, a nonempty free-slot list yields one of its
own members. -/
lemma slotChoice_mem {A : List String} (u : String) (p : Option String)
    (h : A ≠ []) : slotChoice A u p ∈ A := by
  have hne : A.isEmpty = false := by simpa [List.isEmpty_iff] using h
  unfold slotChoice
  rw [hne]
  simp only [Bool.false_eq_true, false_and, if_false, if_neg]
  split_ifs with h1 h2
  · exact List.mem_of_elem_eq_true h1.2
  · exact headD_mem h
  · rcases hf : ["10:00 AM", "10:30 AM", "02:30 PM", "03:00 PM"].find?
        (fun slot => A.contains slot) with _ | s
    · simp only [hf]
      exact headD_mem h
    · have hs := List.find?_some hf
      simp only [hf]
      exact List.mem_of_elem_eq_true (by simpa using hs)

end SlotSelection

section SlotClaims

open Scheduler

/-- C4 counterexample: an urgent call with a free preferred time gets
the preferred time, not the earliest free slot — on an empty ledger the
earliest free slot is "09:00 AM" but a high-urgency call preferring
"03:00 PM" receives "03:00 PM". -/
theorem c4_counterexample :
    findOptimalSlot [] 0 "high" (some "03:00 PM") = "03:00 PM" ∧
      availableSlots [] 0 ≠ [] ∧
      (availableSlots [] 0).headD "" = "09:00 AM" ∧
      findOptimalSlot [] 0 "high" (some "03:00 PM") ≠
        (availableSlots [] 0).headD "" := by decide

/-- C4 amended: for an urgent tier (critical or high), the slot is the
emergency sentinel when no catalog slot is free; otherwise the
preferred time when it is given, nonempty and free; otherwise the
earliest free slot of the day's catalog (the head of the in-order free
list). -/
theorem c4_urgent_slot_selection (L : Ledger) (date : Int) (u : String)
    (p : Option String) (hu : u = "critical" ∨ u = "high") :
    (availableSlots L date = [] →
      findOptimalSlot L date u p = "EMERGENCY SLOT") ∧
    (availableSlots L date ≠ [] →
      (pyTruthy p = true ∧
          (availableSlots L date).contains (p.getD "") = true →
        findOptimalSlot L date u p = p.getD "") ∧
      (¬(pyTruthy p = true ∧
          (availableSlots L date).contains (p.getD "") = true) →
        findOptimalSlot L date u p = (availableSlots L date).headD "")) := by
  rw [findOptimalSlot_eq_slotChoice]
  constructor
  · intro hA
    unfold slotChoice
    rw [hA]
    simp [hu]
  · intro hA
    have hne : (availableSlots L date).isEmpty = false := by
      simpa [List.isEmpty_iff] using hA
    constructor
    · intro hp
      unfold slotChoice
      rw [hne]
      simp only [Bool.false_eq_true, false_and, if_false, if_neg]
      rw [if_pos]
      exact ⟨hp.1, hp.2⟩
    · intro hp
      unfold slotChoice
      rw [hne]
      simp only [Bool.false_eq_true, false_and, if_false, if_neg]
      rw [if_neg, if_pos hu]
      exact fun hc => hp ⟨hc.1, hc.2⟩

/-- Concrete instance of `c4_urgent_slot_selection`: with "09:00 AM"
and "09:30 AM" already taken and no preference, a critical call gets
the earliest remaining slot "10:00 AM". -/
theorem c4_witness :
    ("critical" = "critical" ∨ "critical" = "high") ∧
      availableSlots [(0, ["09:00 AM", "09:30 AM"])] 0 ≠ [] ∧
      findOptimalSlot [(0, ["09:00 AM", "09:30 AM"])] 0 "critical" none =
        (availableSlots [(0, ["09:00 AM", "09:30 AM"])] 0).headD "" ∧
      (availableSlots [(0, ["09:00 AM", "09:30 AM"])] 0).headD "" =
        "10:00 AM" :=
  ⟨Or.inl rfl, by decide,
   ((c4_urgent_slot_selection [(0, ["09:00 AM", "09:30 AM"])] 0 "critical"
        none (Or.inl rfl)).2 (by decide)).2 (by decide),
   by decide⟩

/-- Appending a slot to the day's ledger entry appends it to the taken
list the next lookup sees. -/
lemma ledgerRecord_get (L : Ledger) (d : Int) (t : String) :
    ledgerGet (ledgerRecord L d t) d = ledgerGet L d ++ [t] := by
  induction L with
  | nil => simp [ledgerRecord, ledgerGet, List.lookup]
  | cons e rest ih =>
    obtain ⟨d0, l0⟩ := e
    by_cases hd : d0 = d
    · subst hd
      simp [ledgerRecord, ledgerGet, List.lookup]
    · have hbeq : (d == d0) = false := by
        simp [beq_iff_eq]
        omega
      simp only [ledgerRecord, if_neg hd]
      simpa [ledgerGet, List.lookup, hbeq] using ih

/-- C5 counterexample: with every catalog slot already taken, two
sequential urgent calls for the same date both return the emergency
sentinel — the same slot twice, even though the first call's slot was
recorded in the ledger in between. -/
theorem c5_counterexample :
    findOptimalSlot [(0, TIME_SLOTS)] 0 "critical" none =
      "EMERGENCY SLOT" ∧
      findOptimalSlot
        (ledgerRecord [(0, TIME_SLOTS)] 0
          (findOptimalSlot [(0, TIME_SLOTS)] 0 "critical" none))
        0 "high" none =
        findOptimalSlot [(0, TIME_SLOTS)] 0 "critical" none := by decide

/-- C5 amended: once the first call's slot is recorded, a second call
for the same date returns a different slot, provided some catalog slot
for that date is still free at the time of the second call (when the
ledger is exhausted the source deliberately double-books or repeats the
emergency sentinel). -/
theorem c5_recorded_slot_not_repeated (L : Ledger) (d : Int)
    (u1 u2 : String) (p1 p2 : Option String)
    (hfree : availableSlots (ledgerRecord L d (findOptimalSlot L d u1 p1))
      d ≠ []) :
    findOptimalSlot (ledgerRecord L d (findOptimalSlot L d u1 p1)) d u2 p2 ≠
      findOptimalSlot L d u1 p1 := by
  set t1 := findOptimalSlot L d u1 p1 with ht1
  set L2 := ledgerRecord L d t1 with hL2
  intro hEq
  have hmem : findOptimalSlot L2 d u2 p2 ∈ availableSlots L2 d := by
    rw [findOptimalSlot_eq_slotChoice]
    exact slotChoice_mem u2 p2 hfree
  rw [hEq] at hmem
  have hfilter := List.of_mem_filter hmem
  have htaken : t1 ∈ ledgerGet L2 d := by
    rw [hL2, ledgerRecord_get]
    simp
  have : (ledgerGet L2 d).contains t1 = true :=
    List.elem_eq_true_of_mem htaken
  rw [this] at hfilter
  exact absurd hfilter (by decide)

/-- Concrete instance of `c5_recorded_slot_not_repeated`: a quiet-slot
pick "10:00 AM" is recorded, and the follow-up call gets "10:30 AM". -/
theorem c5_witness :
    availableSlots
        (ledgerRecord [] 0 (findOptimalSlot [] 0 "low" none)) 0 ≠ [] ∧
      findOptimalSlot [] 0 "low" none = "10:00 AM" ∧
      findOptimalSlot
          (ledgerRecord [] 0 (findOptimalSlot [] 0 "low" none)) 0
          "low" none = "10:30 AM" ∧
      findOptimalSlot
          (ledgerRecord [] 0 (findOptimalSlot [] 0 "low" none)) 0
          "low" none ≠ findOptimalSlot [] 0 "low" none :=
  ⟨by decide, by decide, by decide,
   c5_recorded_slot_not_repeated [] 0 "low" "low" none none (by decide)⟩

end SlotClaims

section EscalationClaims

open Triage

/-- Care level of a triage outcome, for closed statements. -/
def triageCareLevel : AgentOutcome TriageAssessment → Nat
  | .ok r => r.care_level
  | .err _ => 0

/-- Escalation notify list of a triage outcome. -/
def triageNotify : AgentOutcome TriageAssessment → List String
  | .ok r => r.escalation.notify
  | .err _ => []

/-- Escalation type of a triage outcome. -/
def triageEscType : AgentOutcome TriageAssessment → Option String
  | .ok r => r.escalation.type
  | .err _ => none

/-- C8 counterexample: (a) a care-level-1 triage with no trigger phrase
notifies the on-call doctor (not a "senior doctor"): the notify list is
[on_call_doctor, department_head, nursing_supervisor] and contains no
senior_doctor entry; (b) a care-level-2 triage whose symptoms mention
"chest pain" is overwritten by the emergency-team escalation, so its
notify set is not {on_call_doctor, assigned_nurse}. -/
theorem c8_counterexample :
    (triageCareLevel (Triage.triage [] none [some "fever"] "critical" 0
        []).1 = 1 ∧
      triageNotify (Triage.triage [] none [some "fever"] "critical" 0
        []).1 = ["on_call_doctor", "department_head", "nursing_supervisor"] ∧
      "senior_doctor" ∉ triageNotify (Triage.triage [] none [some "fever"]
        "critical" 0 []).1) ∧
    (triageCareLevel (Triage.triage [] none [some "chest pain"] "high" 0
        []).1 = 2 ∧
      triageNotify (Triage.triage [] none [some "chest pain"] "high" 0
        []).1 = ["emergency_team", "on_call_doctor"] ∧
      "assigned_nurse" ∉ triageNotify (Triage.triage [] none
        [some "chest pain"] "high" 0 []).1) := by decide

/-- C8 amended: when no critical trigger phrase occurs, care level 1
escalates with type senior_doctor and notify set
{on_call_doctor, department_head, nursing_supervisor}, and care level 2
notifies {on_call_doctor, assigned_nurse}; any occurrence of
unconscious / not breathing / severe bleeding / chest pain in the
symptoms forces the emergency-team escalation
(notify {emergency_team, on_call_doctor}) regardless of the computed
level. -/
theorem c8_escalation_sets (Q : Queue) (aid : Option String)
    (symptoms : List (Option String)) (syms : List String) (u : String)
    (s : Int) (conds : List SymptomAnalyzer.Condition)
    (h1 : symptoms.mapM id = some syms) :
    (criticalTriggerIn syms = false →
      (triageCareLevel (Triage.triage Q aid symptoms u s conds).1 = 1 →
        triageEscType (Triage.triage Q aid symptoms u s conds).1 =
          some "senior_doctor" ∧
        triageNotify (Triage.triage Q aid symptoms u s conds).1 =
          ["on_call_doctor", "department_head", "nursing_supervisor"]) ∧
      (triageCareLevel (Triage.triage Q aid symptoms u s conds).1 = 2 →
        triageNotify (Triage.triage Q aid symptoms u s conds).1 =
          ["on_call_doctor", "assigned_nurse"])) ∧
    (criticalTriggerIn syms = true →
      triageEscType (Triage.triage Q aid symptoms u s conds).1 =
        some "emergency_team" ∧
      triageNotify (Triage.triage Q aid symptoms u s conds).1 =
        ["emergency_team", "on_call_doctor"]) := by
  have hp : (Triage.triage Q aid symptoms u s conds).1 =
      .ok { care_level := determineCareLevel u s,
            department := routeToDepartment syms conds,
            estimated_wait_minutes :=
              estimateWaitTime (determineCareLevel u s),
            urgency_classification := u,
            escalation := checkEscalation (determineCareLevel u s) syms,
            queue_position :=
              (addToQueue Q aid (determineCareLevel u s)).1 } := by
    unfold Triage.triage
    rw [h1]
  rw [hp]
  simp only [triageCareLevel, triageNotify, triageEscType]
  constructor
  · intro htr
    unfold checkEscalation
    rw [htr]
    simp only [Bool.false_eq_true, if_false]
    constructor
    · intro hcl
      rw [hcl]
      simp
    · intro hcl
      rw [hcl]
      simp
  · intro htr
    unfold checkEscalation
    rw [htr]
    simp

/-- Concrete instance of `c8_escalation_sets`: a trigger-free critical
case gets the level-1 escalation record. -/
theorem c8_witness :
    ([some "fever"].mapM id = some ["fever"]) ∧
      criticalTriggerIn ["fever"] = false ∧
      triageCareLevel (Triage.triage [] none [some "fever"] "critical" 0
        []).1 = 1 ∧
      triageEscType (Triage.triage [] none [some "fever"] "critical" 0
        []).1 = some "senior_doctor" :=
  ⟨by decide, by decide, by decide,
   (((c8_escalation_sets [] none [some "fever"] ["fever"] "critical" 0 []
       (by decide)).1 (by decide)).1 (by decide)).1⟩

end EscalationClaims

section DocumentationClaims

open Docs

/-- C3 counterexample: `update_visit` merges updates unconditionally,
so a transition attempt on a COMPLETED visit (re-running the
process-audio endpoint) moves the status back to PROCESSING instead of
being a no-op. -/
theorem c3_counterexample :
    (updateVisit [("CLINIC#C1|VISIT#1",
        { status := .COMPLETED, audio_s3_key := some "a.webm",
          transcript := some "t", error_message := none })]
      "CLINIC#C1|VISIT#1" (processAudioEndpointUpdate "b.webm")).lookup
        "CLINIC#C1|VISIT#1" =
      some { status := .PROCESSING, audio_s3_key := some "b.webm",
             transcript := some "t", error_message := none } ∧
      Docs.VisitStatus.PROCESSING ≠ Docs.VisitStatus.COMPLETED := by decide

/-- C3 amended: within a single intake-and-process run, the status
trace starts at PENDING, each move is one forward step of the chain
PENDING, PROCESSING, TRANSCRIBING, ANALYZING, COMPLETED (or a direct
move to FAILED from a non-terminal state), no state is skipped forward,
and the trace ends in COMPLETED or FAILED; terminality of
COMPLETED/FAILED is not enforced by the store, whose `update_visit`
applies any status update unconditionally, so a renewed processing
request on a finished visit restarts the machine at PROCESSING. -/
theorem c3_single_run_forward_chain (env : PipelineEnv) :
    List.Chain' forwardStep (statusTrace env) ∧
      (statusTrace env).head? = some .PENDING ∧
      ((statusTrace env).getLast? = some .COMPLETED ∨
        (statusTrace env).getLast? = some .FAILED) := by
  obtain ⟨t, tr, so, df, rf⟩ := env
  cases t <;> cases tr <;> cases so <;> cases df <;> cases rf <;>
    simp [statusTrace, pipelineUpdates, forwardStep, statusRank,
      List.chain'_cons]

end DocumentationClaims

section OrchestratorClaims

open Orchestrator SymptomAnalyzer Scheduler Triage FollowUp

/-- C1 counterexample: a case whose raw symptom list holds a non-string
value makes stage 1 (and stage 3) report status "error", yet the
remaining stages are still invoked — the stage list has all four
entries, scheduling and follow-up run with default values — and the
run's final status is "completed", not "error". -/
theorem c1_counterexample :
    ((Orchestrator.processAppointment 0 [] []
        { id := some "APT_1", patient_name := some "P", symptoms := [none],
          symptom_details := "", severity := none, duration := none,
          preferred_date := none, preferred_time := none }).1.stages.map
        (·.status)) = ["error", "scheduled", "error", "active"] ∧
      (Orchestrator.processAppointment 0 [] []
        { id := some "APT_1", patient_name := some "P", symptoms := [none],
          symptom_details := "", severity := none, duration := none,
          preferred_date := none, preferred_time := none
        }).1.stages.length = 4 ∧
      (Orchestrator.processAppointment 0 [] []
        { id := some "APT_1", patient_name := some "P", symptoms := [none],
          symptom_details := "", severity := none, duration := none,
          preferred_date := none, preferred_time := none
        }).1.final_status = "completed" := by decide

/-- C1 amended: the orchestrator invokes all four stages
unconditionally for every case input — a stage failure is caught inside
the agent and recorded as status "error" on that stage's retained
result, the later stages still run (with defaults urgency medium,
severity 5, no conditions substituted for a failed analysis), the error
is never re-raised to the caller, and the run's final status is always
"completed", not "error". -/
theorem c1_all_stages_always_run (today : Int) (L : Ledger) (Q : Queue)
    (inp : Orchestrator.AppointmentData) :
    ((Orchestrator.processAppointment today L Q inp).1.stages.map
        (·.name)) =
      ["Symptom Analysis", "Auto-Scheduling", "Triage", "Follow-Up Plan"] ∧
    ((Orchestrator.processAppointment today L Q inp).1.stages.map
        (·.status)) =
      [analyzeStatus
          (Orchestrator.processAppointment today L Q inp).1.analysis_result,
        scheduleStatus
          (Orchestrator.processAppointment today L Q inp).1.schedule_result,
        triageStatus
          (Orchestrator.processAppointment today L Q inp).1.triage_result,
        followupStatus
          (Orchestrator.processAppointment today L Q inp).1.followup_result] ∧
    (Orchestrator.processAppointment today L Q inp).1.final_status =
      "completed" := by
  refine ⟨rfl, ?_, rfl⟩
  unfold Orchestrator.processAppointment
  rfl

end OrchestratorClaims

section BroadcastClaims

open WS

/-- A broadcast delivers to exactly the group's registered subscribers
whose send succeeds. -/
lemma ws_broadcast_filter (ok : Conn → Bool) (reg : Registry) (g : String) :
    (WS.broadcast ok reg g).2 = (members reg g).filter ok := by
  induction reg with
  | nil => simp [WS.broadcast, members, List.lookup]
  | cons e rest ih =>
    obtain ⟨g0, conns⟩ := e
    by_cases hg : g0 = g
    · subst hg
      simp [WS.broadcast, members, List.lookup]
    · have hbeq : (g == g0) = false := by
        simp [beq_iff_eq]
        exact fun hEq => hg hEq.symm
      simp only [WS.broadcast, if_neg hg]
      simpa [members, List.lookup, hbeq] using ih

/-- The per-operation delivery log of a run, one step unfolded. -/
lemma ws_run_log_cons (ok : Conn → Bool) (reg : Registry) (op : Op)
    (rest : List Op) :
    (run ok reg (op :: rest)).2 =
      (match op with
        | .broadcast g m =>
          ((WS.broadcast ok reg g).2).map (fun c => (c, g, m))
        | _ => []) :: (run ok (stepReg ok reg op) rest).2 := by
  cases op <;> simp [run, stepReg]

/-- Exactness of deliveries: the operation at index `i`, when it is a
broadcast, delivers to exactly the group's subscribers registered in
the registry state just before it whose send succeeds. -/
lemma ws_deliveries_exact (ok : Conn → Bool) (ops : List Op) :
    ∀ (i : Nat) (reg : Registry) (g m), ops.get? i = some (.broadcast g m) →
      deliveriesAt ok reg ops i =
        ((members (stateBefore ok reg ops i) g).filter ok).map
          (fun c => (c, g, m)) := by
  induction ops with
  | nil => intro i reg g m h; simp at h
  | cons op rest ih =>
    intro i reg g m h
    cases i with
    | zero =>
      simp only [List.get?_cons_zero, Option.some.injEq] at h
      subst h
      unfold deliveriesAt
      rw [ws_run_log_cons]
      simp only [List.get?_cons_zero, Option.getD_some]
      rw [ws_broadcast_filter]
      rfl
    | succ i =>
      simp only [List.get?_cons_succ] at h
      have hstep : stateBefore ok reg (op :: rest) (i + 1) =
          stateBefore ok (stepReg ok reg op) rest i := by
        simp [stateBefore, List.take_succ_cons]
      have hdel : deliveriesAt ok reg (op :: rest) (i + 1) =
          deliveriesAt ok (stepReg ok reg op) rest i := by
        unfold deliveriesAt
        rw [ws_run_log_cons]
        simp
      rw [hstep, hdel]
      exact ih i (stepReg ok reg op) g m h

/-- A connect (or disconnect) operation delivers nothing. -/
lemma ws_connect_silent (ok : Conn → Bool) (ops : List Op) :
    ∀ (i : Nat) (reg : Registry) (c : Conn) (g : String),
      ops.get? i = some (.connect c g) →
      deliveriesAt ok reg ops i = [] := by
  induction ops with
  | nil => intro i reg c g h; simp at h
  | cons op rest ih =>
    intro i reg c g h
    cases i with
    | zero =>
      simp only [List.get?_cons_zero, Option.some.injEq] at h
      subst h
      unfold deliveriesAt
      rw [ws_run_log_cons]
      simp
    | succ i =>
      simp only [List.get?_cons_succ] at h
      unfold deliveriesAt
      rw [ws_run_log_cons]
      simpa [deliveriesAt] using ih i (stepReg ok reg op) c g h

end BroadcastClaims

section BroadcastClaimTheorem

open WS

/-- C9: for every run of connection-manager operations, (1) a broadcast
to a group delivers exactly to the connections registered to that group
at the moment of the call (those whose send succeeds), so (2) a
connection not registered to the broadcast group at that moment — in
particular one only subscribed to another group — receives nothing from
it, and (3) a subscription operation delivers no message at all, so a
connection subscribing after a broadcast never receives that broadcast
(whose deliveries were fixed by the earlier registry state). -/
theorem c9_broadcast_isolation (ok : Conn → Bool) (reg : Registry)
    (ops : List Op) :
    (∀ i g m, ops.get? i = some (.broadcast g m) →
      deliveriesAt ok reg ops i =
        ((members (stateBefore ok reg ops i) g).filter ok).map
          (fun c => (c, g, m))) ∧
    (∀ i g m c, ops.get? i = some (.broadcast g m) →
      c ∉ members (stateBefore ok reg ops i) g →
      ∀ d ∈ deliveriesAt ok reg ops i, d.1 ≠ c) ∧
    (∀ i c g, ops.get? i = some (.connect c g) →
      deliveriesAt ok reg ops i = []) := by
  refine ⟨fun i g m h => ws_deliveries_exact ok ops i reg g m h,
    fun i g m c h hc d hd => ?_,
    fun i c g h => ws_connect_silent ok ops i reg c g h⟩
  rw [ws_deliveries_exact ok ops i reg g m h] at hd
  rcases List.mem_map.mp hd with ⟨x, hx, hxd⟩
  have hxm : x ∈ members (stateBefore ok reg ops i) g :=
    List.mem_of_mem_filter hx
  intro hdc
  rw [← hxd] at hdc
  have hxc : x = c := by simpa using hdc
  exact hc (hxc ▸ hxm)

/-- Concrete instance of `c9_broadcast_isolation`: with connections 1, 2
on clinic A and 3 on clinic B, the broadcast to A reaches exactly 1 and
2, never 3, and the later subscription of 4 to A receives nothing. -/
theorem c9_witness :
    deliveriesAt (fun _ => true) []
        [.connect 1 "A", .connect 2 "A", .connect 3 "B",
         .broadcast "A" "m", .connect 4 "A"] 3 =
      [(1, "A", "m"), (2, "A", "m")] ∧
      deliveriesAt (fun _ => true) []
        [.connect 1 "A", .connect 2 "A", .connect 3 "B",
         .broadcast "A" "m", .connect 4 "A"] 4 = [] := by
  constructor
  · rw [(c9_broadcast_isolation (fun _ => true) []
      [.connect 1 "A", .connect 2 "A", .connect 3 "B",
       .broadcast "A" "m", .connect 4 "A"]).1 3 "A" "m" (by decide)]
    decide
  · exact (c9_broadcast_isolation (fun _ => true) []
      [.connect 1 "A", .connect 2 "A", .connect 3 "B",
       .broadcast "A" "m", .connect 4 "A"]).2.2 4 4 "A" (by decide)

end BroadcastClaimTheorem
